import Mathlib

/-!
Verification development for the `caching_platform` repository: a shallow
embedding, in Lean 4, of the multi-tenant cache manager
(`core/cache_manager.py`), the orchestrator command dispatch
(`core/orchestrator.py`), the auto-scaler (`core/auto_scaler.py`) and the
load balancer (`core/load_balancer.py`), together with theorems settling the
behavioural claims about quota enforcement, rate limiting, admission,
command dispatch, scaling decisions and connection bookkeeping.

Modelling conventions:
* Python floats are modelled as exact rationals (`ℚ`); Python ints as `ℤ`
  or `ℕ` as appropriate.
* Python dicts are insertion-ordered association lists `List (String × α)`;
  `alookup` is `d[k]` / `d.get(k)`, `aset` is `d[k] = v` (update in place
  if the key exists, append otherwise).
* Redis is modelled as a pure key-value map from storage keys to stored
  strings with an optional expiry; values are kept in the serialized form
  that the cache manager hands to Redis (`json.dumps` is an external,
  deterministic, injective envelope, so operations take the serialized
  string directly).
* A Python exception escaping to an operation's `except` handler is
  modelled with `Except Unit`.
-/

/-- Lookup in an insertion-ordered association list (Python `d.get(k)`). -/
def alookup {α : Type} : List (String × α) → String → Option α
  | [], _ => none
  | (k, v) :: rest, key => if k = key then some v else alookup rest key

/-- Update in an insertion-ordered association list (Python `d[k] = v`):
replaces the first binding of the key in place, appending when absent. -/
def aset {α : Type} : List (String × α) → String → α → List (String × α)
  | [], key, v => [(key, v)]
  | (k, w) :: rest, key, v =>
      if k = key then (k, v) :: rest else (k, w) :: aset rest key v

/-- Deletion from an association list (Python `del d[k]` / Redis `DEL`). -/
def adel {α : Type} (m : List (String × α)) (key : String) : List (String × α) :=
  m.filter (fun p => p.1 != key)

theorem alookup_aset_self {α : Type} (m : List (String × α)) (k : String) (v : α) :
    alookup (aset m k v) k = some v := by
  induction m with
  | nil => simp [aset, alookup]
  | cons p rest ih =>
      by_cases h : p.1 = k
      · simp [aset, h, alookup]
      · simp [aset, h, alookup, ih]

theorem alookup_aset_ne {α : Type} (m : List (String × α)) (k k' : String) (v : α)
    (h : k ≠ k') : alookup (aset m k v) k' = alookup m k' := by
  induction m with
  | nil => simp [aset, alookup, h]
  | cons p rest ih =>
      obtain ⟨pk, pv⟩ := p
      by_cases hp : pk = k
      · subst hp
        simp [aset, alookup, h]
      · by_cases hp' : pk = k'
        · subst hp'
          simp [aset, alookup, hp]
        · simp [aset, alookup, hp, hp', ih]

theorem mem_aset {α : Type} (m : List (String × α)) (k : String) (v : α) :
    ∀ p ∈ aset m k v, p ∈ m ∨ p = (k, v) := by
  induction m with
  | nil => intro p hp; simp [aset] at hp; right; exact hp
  | cons q rest ih =>
      intro p hp
      by_cases hq : q.1 = k
      · simp [aset, hq] at hp
        rcases hp with h | h
        · right; rw [h, ← hq]
        · left; simp [h]
      · simp [aset, hq] at hp
        rcases hp with h | h
        · left; simp [h]
        · rcases ih p h with h' | h'
          · left; simp [h']
          · right; exact h'

/-! ## Data model (`config/schemas.py`) -/

/-- Tenant status enumeration (`config/schemas.py`, `TenantStatus`). -/
inductive TenantStatus
  | active
  | suspended
  | pending
  | deleted
deriving DecidableEq, Repr

/-- Tenant record (`config/schemas.py`, `Tenant`).  Only the fields the
cache manager's data plane reads are carried; timestamps, namespace and the
free-form settings map play no role in the verified operations.
`memory_limit_mb` and `requests_per_second` are ints in the source but are
compared against float arithmetic, hence `ℚ` here. -/
structure Tenant where
  id : String
  name : String
  status : TenantStatus
  memory_limit_mb : ℚ
  requests_per_second : ℚ
  max_connections : ℕ
deriving DecidableEq, Repr

/-- Per-tenant cache metrics (`config/schemas.py`, `CacheMetrics`), restricted
to the fields `_update_operation_metrics` and the data-plane operations touch. -/
structure CacheMetrics where
  total_requests : ℕ := 0
  successful_requests : ℕ := 0
  failed_requests : ℕ := 0
  cache_hits : ℕ := 0
  cache_misses : ℕ := 0
  hit_ratio : ℚ := 0
  average_response_time_ms : ℚ := 0
  memory_used_mb : ℚ := 0
  error_rate : ℚ := 0
deriving DecidableEq, Repr

/-- A stored Redis value: the serialized string plus the expiry that `SETEX`
recorded, if any. -/
structure RedisEntry where
  value : String
  expire : Option ℤ := none
deriving DecidableEq, Repr

/-- The mutable state of `MultiTenantCacheManager` (`core/cache_manager.py`,
`__init__`) together with the backing Redis keyspace. -/
structure CacheState where
  tenants : List (String × Tenant)
  tenantMetrics : List (String × CacheMetrics)
  rateLimiters : List (String × List (String × ℚ))
  store : List (String × RedisEntry)
  total_hits : ℕ := 0
  total_misses : ℕ := 0
deriving DecidableEq, Repr

/-- Redis `GET`. -/
def redis_get (store : List (String × RedisEntry)) (k : String) : Option String :=
  (alookup store k).map RedisEntry.value

/-- Redis `SET` / `SETEX` as issued by `cache_manager.set` lines 263-266:
`SETEX` when `ttl` is truthy (present and nonzero), `SET` otherwise. -/
def redis_write (store : List (String × RedisEntry)) (k v : String)
    (ttl : Option ℤ) : List (String × RedisEntry) :=
  match ttl with
  | some t => if t ≠ 0 then aset store k ⟨v, some t⟩ else aset store k ⟨v, none⟩
  | none => aset store k ⟨v, none⟩

/-- Number of keys a Redis `DEL k` removes (0 or 1). -/
def redis_del_count (store : List (String × RedisEntry)) (k : String) : ℕ :=
  if (alookup store k).isSome then 1 else 0

/-- Storage key namespacing (`cache_manager._get_cache_key`):
`cache:{tenant_id}:{key}`. -/
def cache_key (tenant_id key : String) : String :=
  "cache:" ++ tenant_id ++ ":" ++ key

/-- Byte size of a serialized value converted to MB
(`len(serialized_value.encode("utf-8")) / (1024 * 1024)`, line 255). -/
def value_size_mb (serialized_value : String) : ℚ :=
  (serialized_value.utf8ByteSize : ℚ) / (1024 * 1024)

/-! ## Admission check (`cache_manager._check_tenant_quota`, lines 173-199) -/

/-- The admission check `_check_tenant_quota(tenant_id, operation)`:
tenant existence, memory quota, then the per-(tenant, operation) rate gate.
`now` is `time.time()`.  The check mutates `rate_limiters`; it returns
`Except.error` when the metrics record is missing (Python `KeyError`, which
the data-plane callers catch).  Note that the tenant's `status` field is
never consulted. -/
def check_tenant_quota (s : CacheState) (now : ℚ) (tenant_id operation : String) :
    Except Unit (Bool × CacheState) :=
  match alookup s.tenants tenant_id with
  | none => .ok (false, s)
  | some tenant =>
    match alookup s.tenantMetrics tenant_id with
    | none => .error ()
    | some metrics =>
      if metrics.memory_used_mb > tenant.memory_limit_mb then .ok (false, s)
      else
        let limiters := (alookup s.rateLimiters tenant_id).getD []
        let s1 : CacheState :=
          match alookup s.rateLimiters tenant_id with
          | some _ => s
          | none => { s with rateLimiters := aset s.rateLimiters tenant_id [] }
        let rate_key := "rate:" ++ operation
        let last_request := (alookup limiters rate_key).getD 0
        if now - last_request < 1 / tenant.requests_per_second then
          .ok (false, s1)
        else
          .ok (true,
            { s1 with
                rateLimiters :=
                  aset s1.rateLimiters tenant_id (aset limiters rate_key now) })

/-- The stored last-admission timestamp for `(tenant, operation)`
(`self.rate_limiters[tenant_id].get(f"rate:{operation}", 0)`). -/
def rate_last (s : CacheState) (tenant_id operation : String) : ℚ :=
  (alookup ((alookup s.rateLimiters tenant_id).getD []) ("rate:" ++ operation)).getD 0

/-- Per-tenant `memory_used_mb` as seen in `tenant_metrics`. -/
def mem_used (s : CacheState) (tenant_id : String) : ℚ :=
  ((alookup s.tenantMetrics tenant_id).map CacheMetrics.memory_used_mb).getD 0

/-! ## Metric bookkeeping (`cache_manager._update_operation_metrics`,
lines 475-506) -/

/-- The new value of one tenant's metric record after an operation
(`_update_operation_metrics` body, lines 480-506).  Clamping is not applied
in the source; the formulas are carried over verbatim. -/
def metrics_after_op (m : CacheMetrics) (response_time : ℚ) (success : Bool) :
    CacheMetrics :=
  let m1 : CacheMetrics :=
      { m with
          total_requests := m.total_requests + 1,
          successful_requests := m.successful_requests + (if success then 1 else 0),
          failed_requests := m.failed_requests + (if success then 0 else 1) }
    let m2 : CacheMetrics :=
      if response_time > 0 then
        { m1 with average_response_time_ms :=
            (m1.average_response_time_ms * ((m1.total_requests - 1 : ℕ) : ℚ)
              + response_time) / (m1.total_requests : ℚ) }
      else m1
    let total_operations := m2.cache_hits + m2.cache_misses
    let m3 : CacheMetrics :=
      if total_operations > 0 then
        { m2 with hit_ratio := ((m2.cache_hits : ℚ) / (total_operations : ℚ)) * 100 }
      else m2
    let m4 : CacheMetrics :=
      if m3.total_requests > 0 then
        { m3 with error_rate := ((m3.failed_requests : ℚ) / (m3.total_requests : ℚ)) * 100 }
      else m3
    m4

/-- Metric update performed after every data-plane operation
(`_update_operation_metrics`, lines 475-506): a missing metric record is a
no-op, otherwise the tenant's record is replaced by `metrics_after_op`. -/
def update_operation_metrics (s : CacheState) (tenant_id : String)
    (response_time : ℚ) (success : Bool) : CacheState :=
  match alookup s.tenantMetrics tenant_id with
  | none => s
  | some m =>
      { s with
          tenantMetrics :=
            aset s.tenantMetrics tenant_id (metrics_after_op m response_time success) }

/-! ## Data-plane operations (`cache_manager.get/set/delete/incr/decr/mget/mset`) -/

/-- `get(tenant_id, key, default)` (lines 205-239).  `rt` is the measured
elapsed time in ms; the returned value is the stored serialized string
(deserialization is the external envelope). -/
def cache_get (s : CacheState) (now rt : ℚ) (tenant_id key : String)
    (dflt : Option String) : Option String × CacheState :=
  match check_tenant_quota s now tenant_id "get" with
  | .error _ => (dflt, update_operation_metrics s tenant_id 0 false)
  | .ok (false, s1) => (dflt, s1)
  | .ok (true, s1) =>
    match redis_get s1.store (cache_key tenant_id key) with
    | some v =>
      let s2 : CacheState := { s1 with total_hits := s1.total_hits + 1 }
      let s3 : CacheState :=
        match alookup s2.tenantMetrics tenant_id with
        | some m =>
            { s2 with
                tenantMetrics :=
                  aset s2.tenantMetrics tenant_id { m with cache_hits := m.cache_hits + 1 } }
        | none => s2
      (some v, update_operation_metrics s3 tenant_id rt true)
    | none =>
      let s2 : CacheState := { s1 with total_misses := s1.total_misses + 1 }
      let s3 : CacheState :=
        match alookup s2.tenantMetrics tenant_id with
        | some m =>
            { s2 with
                tenantMetrics :=
                  aset s2.tenantMetrics tenant_id { m with cache_misses := m.cache_misses + 1 } }
        | none => s2
      (dflt, update_operation_metrics s3 tenant_id rt false)

/-- `set(tenant_id, key, value, ttl)` (lines 241-281).  `serialized_value`
is `json.dumps(value)`.  The memory-quota branch (lines 254-260) rejects
without touching Redis or the memory counter; otherwise the value is written
(`SET` or `SETEX`) and `memory_used_mb` grows by the value's size in MB. -/
def cache_set (s : CacheState) (now rt : ℚ) (tenant_id key serialized_value : String)
    (ttl : Option ℤ) : Bool × CacheState :=
  match check_tenant_quota s now tenant_id "set" with
  | .error _ => (false, update_operation_metrics s tenant_id 0 false)
  | .ok (false, s1) => (false, s1)
  | .ok (true, s1) =>
    match alookup s1.tenants tenant_id, alookup s1.tenantMetrics tenant_id with
    | some tenant, some metrics =>
      let value_size := value_size_mb serialized_value
      if metrics.memory_used_mb + value_size > tenant.memory_limit_mb then
        (false, s1)
      else
        let s2 : CacheState :=
          { s1 with
              store := redis_write s1.store (cache_key tenant_id key) serialized_value ttl,
              tenantMetrics := aset s1.tenantMetrics tenant_id
                { metrics with memory_used_mb := metrics.memory_used_mb + value_size } }
        (true, update_operation_metrics s2 tenant_id rt true)
    | _, _ => (false, update_operation_metrics s1 tenant_id 0 false)

/-- `delete(tenant_id, key)` (lines 283-314): fetch the stored value for
memory accounting (Python truthiness: empty strings are not accounted),
subtract its size, `DEL`, and report success iff the deletion count is
positive. -/
def cache_delete (s : CacheState) (now rt : ℚ) (tenant_id key : String) :
    Bool × CacheState :=
  match check_tenant_quota s now tenant_id "delete" with
  | .error _ => (false, update_operation_metrics s tenant_id 0 false)
  | .ok (false, s1) => (false, s1)
  | .ok (true, s1) =>
    let ck := cache_key tenant_id key
    let s2 : CacheState :=
      match redis_get s1.store ck with
      | some v =>
        if v ≠ "" then
          match alookup s1.tenantMetrics tenant_id with
          | some m =>
              { s1 with
                  tenantMetrics :=
                    aset s1.tenantMetrics tenant_id
                      { m with memory_used_mb := m.memory_used_mb - value_size_mb v } }
          | none => s1
        else s1
      | none => s1
    let success := redis_del_count s2.store ck > 0
    let s3 : CacheState := { s2 with store := adel s2.store ck }
    (success, update_operation_metrics s3 tenant_id rt success)

/-- Redis `INCRBY` (`DECRBY` is `INCRBY` with a negated amount): interpret
the stored string as an integer (error when it is not one), add, store the
result back. -/
def redis_incrby (store : List (String × RedisEntry)) (k : String) (amount : ℤ) :
    Except Unit (ℤ × List (String × RedisEntry)) :=
  match alookup store k with
  | none => .ok (amount, aset store k ⟨toString amount, none⟩)
  | some e =>
    match e.value.toInt? with
    | some n => .ok (n + amount, aset store k ⟨toString (n + amount), none⟩)
    | none => .error ()

/-- `incr(tenant_id, key, amount)` (lines 343-366). -/
def cache_incr (s : CacheState) (now rt : ℚ) (tenant_id key : String) (amount : ℤ) :
    Option ℤ × CacheState :=
  match check_tenant_quota s now tenant_id "incr" with
  | .error _ => (none, update_operation_metrics s tenant_id 0 false)
  | .ok (false, s1) => (none, s1)
  | .ok (true, s1) =>
    match redis_incrby s1.store (cache_key tenant_id key) amount with
    | .error _ => (none, update_operation_metrics s1 tenant_id 0 false)
    | .ok (result, store1) =>
        (some result, update_operation_metrics { s1 with store := store1 } tenant_id rt true)

/-- `decr(tenant_id, key, amount)` (lines 368-391). -/
def cache_decr (s : CacheState) (now rt : ℚ) (tenant_id key : String) (amount : ℤ) :
    Option ℤ × CacheState :=
  match check_tenant_quota s now tenant_id "decr" with
  | .error _ => (none, update_operation_metrics s tenant_id 0 false)
  | .ok (false, s1) => (none, s1)
  | .ok (true, s1) =>
    match redis_incrby s1.store (cache_key tenant_id key) (-amount) with
    | .error _ => (none, update_operation_metrics s1 tenant_id 0 false)
    | .ok (result, store1) =>
        (some result, update_operation_metrics { s1 with store := store1 } tenant_id rt true)

/-- Hit bookkeeping shared by `get`/`mget` (lines 218-221 and 410-412). -/
def bump_hit (s : CacheState) (tenant_id : String) : CacheState :=
  let s1 : CacheState := { s with total_hits := s.total_hits + 1 }
  match alookup s1.tenantMetrics tenant_id with
  | some m =>
      { s1 with
          tenantMetrics :=
            aset s1.tenantMetrics tenant_id { m with cache_hits := m.cache_hits + 1 } }
  | none => s1

/-- Miss bookkeeping shared by `get`/`mget` (lines 225-227 and 414-416). -/
def bump_miss (s : CacheState) (tenant_id : String) : CacheState :=
  let s1 : CacheState := { s with total_misses := s.total_misses + 1 }
  match alookup s1.tenantMetrics tenant_id with
  | some m =>
      { s1 with
          tenantMetrics :=
            aset s1.tenantMetrics tenant_id { m with cache_misses := m.cache_misses + 1 } }
  | none => s1

/-- `mget(tenant_id, keys)` (lines 393-429): fetch every slot, then count a
hit or miss per slot. -/
def cache_mget (s : CacheState) (now rt : ℚ) (tenant_id : String) (keys : List String) :
    List (Option String) × CacheState :=
  match check_tenant_quota s now tenant_id "mget" with
  | .error _ => (keys.map (fun _ => none), update_operation_metrics s tenant_id 0 false)
  | .ok (false, s1) => (keys.map (fun _ => none), s1)
  | .ok (true, s1) =>
    let values := keys.map (fun k => redis_get s1.store (cache_key tenant_id k))
    let s2 := values.foldl
      (fun acc v => match v with
        | some _ => bump_hit acc tenant_id
        | none => bump_miss acc tenant_id) s1
    (values, update_operation_metrics s2 tenant_id rt true)

/-- `mset(tenant_id, key_values)` (lines 431-473): accumulate the serialized
sizes, check the quota against the sum, then `MSET` (no TTL) and add the sum
to `memory_used_mb`. -/
def cache_mset (s : CacheState) (now rt : ℚ) (tenant_id : String)
    (key_values : List (String × String)) : Bool × CacheState :=
  match check_tenant_quota s now tenant_id "mset" with
  | .error _ => (false, update_operation_metrics s tenant_id 0 false)
  | .ok (false, s1) => (false, s1)
  | .ok (true, s1) =>
    let cache_data := key_values.map (fun p => (cache_key tenant_id p.1, p.2))
    let total_size := (key_values.map (fun p => value_size_mb p.2)).sum
    match alookup s1.tenants tenant_id, alookup s1.tenantMetrics tenant_id with
    | some tenant, some metrics =>
      if metrics.memory_used_mb + total_size > tenant.memory_limit_mb then
        (false, s1)
      else
        let s2 : CacheState :=
          { s1 with
              store := cache_data.foldl (fun st p => aset st p.1 ⟨p.2, none⟩) s1.store,
              tenantMetrics := aset s1.tenantMetrics tenant_id
                { metrics with memory_used_mb := metrics.memory_used_mb + total_size } }
        (true, update_operation_metrics s2 tenant_id rt true)
    | _, _ => (false, update_operation_metrics s1 tenant_id 0 false)

/-! ## Orchestrator command dispatch (`core/orchestrator.py`,
`CacheOrchestrator.execute_command`, lines 713-729) -/

/-- Outcome of one `execute_command` dispatch: either one of the four
implemented handlers is invoked, or the unknown-command branch returns
`{"success": False, "error": f"Unknown command: {command}"}`. -/
inductive Dispatched
  | handler (name : String)
  | unknown (error : String)
deriving DecidableEq, Repr

/-- The dispatch performed by `execute_command` (lines 716-725): a four-way
string comparison with an unknown-command fallback. -/
def execute_command (command : String) : Dispatched :=
  if command = "create_backup" then .handler "_create_backup"
  else if command = "restore_backup" then .handler "_restore_backup"
  else if command = "get_metrics" then .handler "_get_metrics"
  else if command = "get_tenants" then .handler "_get_tenants"
  else .unknown ("Unknown command: " ++ command)

/-- The command vocabulary the specification documents for the orchestrator
surface (spec §4.2); stated here to compare against the implemented
dispatch. -/
def documented_commands : List String :=
  ["create_tenant", "delete_tenant", "list_tenants", "get_tenant_details",
   "modify_tenant_quotas", "cache_get", "cache_set", "cache_delete",
   "get_metrics", "get_cluster_status", "scale_cluster", "get_scaling_status",
   "configure_scaling", "acknowledge_alert", "resolve_alert", "create_backup",
   "restore_backup", "health_check", "load_test"]

/-! ## Auto-scaler (`core/auto_scaler.py`) -/

/-- Scaling decision record (`config/schemas.py`, `ScalingDecision`),
timestamps as rationals. -/
structure ScalingDecision where
  id : String
  agent_id : String
  decision_type : String
  current_nodes : ℕ
  target_nodes : ℕ
  reason : String
  cpu_usage : ℚ
  memory_usage : ℚ
  request_rate : ℚ
  created_at : ℚ
  executed_at : Option ℚ := none
  executed : Bool := false
  successful : Option Bool := none
deriving DecidableEq, Repr

/-- The auto-scaler's mutable state (`AutoScaler.__init__`, lines 19-40);
the threshold and cooldown fields are the copies the constructor takes from
the scaling configuration, `min_nodes`/`max_nodes` are read through
`self.scaling_config`. -/
structure ScalerState where
  min_nodes : ℕ
  max_nodes : ℕ
  scale_up_threshold : ℚ
  scale_down_threshold : ℚ
  scale_up_cooldown : ℚ
  scale_down_cooldown : ℚ
  current_nodes : ℕ
  last_scale_up : ℚ := 0
  last_scale_down : ℚ := 0
  scaling_decisions : List ScalingDecision := []
deriving DecidableEq, Repr

/-- `_get_request_rate_threshold` (lines 333-337): `1000 * current_nodes`. -/
def request_rate_threshold (st : ScalerState) : ℚ :=
  1000 * (st.current_nodes : ℚ)

/-- `evaluate_scaling_needs(metrics)` (lines 74-144).  `now` is
`time.time()`; `cpu`, `memory`, `rate` are the three metric reads (defaulted
to 0.0 when absent).  All threshold comparisons are strict, as in the
source.  The interpolated `reason` strings are abbreviated: no claim reads
them. -/
def evaluate_scaling_needs (st : ScalerState) (now cpu memory rate : ℚ) :
    Option ScalingDecision :=
  if now - st.last_scale_up < st.scale_up_cooldown then none
  else if now - st.last_scale_down < st.scale_down_cooldown then none
  else if (cpu > st.scale_up_threshold ∨ memory > st.scale_up_threshold ∨
      rate > request_rate_threshold st) ∧ st.current_nodes < st.max_nodes then
    some
      { id := "scale_up_" ++ toString now.floor,
        agent_id := "scaling_agent",
        decision_type := "scale_up",
        current_nodes := st.current_nodes,
        target_nodes := min (st.current_nodes + 1) st.max_nodes,
        reason := "High resource usage",
        cpu_usage := cpu, memory_usage := memory, request_rate := rate,
        created_at := now }
  else if cpu < st.scale_down_threshold ∧ memory < st.scale_down_threshold ∧
      rate < request_rate_threshold st * (1 / 2) ∧ st.current_nodes > st.min_nodes then
    some
      { id := "scale_down_" ++ toString now.floor,
        agent_id := "scaling_agent",
        decision_type := "scale_down",
        current_nodes := st.current_nodes,
        target_nodes := max (st.current_nodes - 1) st.min_nodes,
        reason := "Low resource usage",
        cpu_usage := cpu, memory_usage := memory, request_rate := rate,
        created_at := now }
  else none

/-- The cache-manager methods `_scale_up`/`_scale_down` invoke.
`MultiTenantCacheManager` (`core/cache_manager.py`, lines 19-647) defines
none of them, so each call raises `AttributeError` at attribute lookup. -/
inductive ManagerMethod
  | add_node
  | rebalance_cluster
  | update_load_balancer_config
  | check_cluster_health
  | migrate_data_from_node
  | remove_node
deriving DecidableEq, Repr

/-- Attribute table of `MultiTenantCacheManager` restricted to the methods
above: none is defined. -/
def manager_defines : ManagerMethod → Bool := fun _ => false

/-- One awaited `self.cache_manager.<method>(...)` call: `AttributeError`
(modelled as `Except.error`) when the method is undefined. -/
def manager_call (m : ManagerMethod) : Except Unit Unit :=
  if manager_defines m then .ok () else .error ()

/-- The post-loop steps of `_scale_up` (lines 203-216): cluster rebalance,
load-balancer refresh, health check.  Each awaited call is a sequencing
point; an `AttributeError` propagates to the handler at line 218, which
returns `False`.  (The `health_check.get("healthy", False)` read is
unreachable because the call raises first.) -/
def scale_up_tail : Bool :=
  match manager_call .rebalance_cluster with
  | .error _ => false
  | .ok _ =>
    match manager_call .update_load_balancer_config with
    | .error _ => false
    | .ok _ =>
      match manager_call .check_cluster_health with
      | .error _ => false
      | .ok _ => true

/-- `_scale_up(target_nodes)` (lines 188-220).  When `new_nodes > 0` the
first loop iteration's `add_node` call raises (handler returns `False`);
with zero iterations control reaches the post-loop steps. -/
def scale_up_exec (current_nodes target_nodes : ℕ) : Bool :=
  let new_nodes : ℤ := (target_nodes : ℤ) - (current_nodes : ℤ)
  if 0 < new_nodes then
    match manager_call .add_node with
    | .error _ => false
    | .ok _ => scale_up_tail
  else scale_up_tail

/-- `_scale_down(target_nodes)` (lines 222-263): returns `True` immediately
when `nodes_to_remove ≤ 0` (line 230); otherwise the first
`migrate_data_from_node` call raises and the handler at line 261 returns
`False` (the subsequent `remove_node`, LB-refresh and health-check steps
are unreachable). -/
def scale_down_exec (current_nodes target_nodes : ℕ) : Bool :=
  let nodes_to_remove : ℤ := (current_nodes : ℤ) - (target_nodes : ℤ)
  if nodes_to_remove ≤ 0 then true
  else
    match manager_call .migrate_data_from_node with
    | .error _ => false
    | .ok _ =>
      match manager_call .remove_node with
      | .error _ => false
      | .ok _ =>
        match manager_call .update_load_balancer_config with
        | .error _ => false
        | .ok _ =>
          match manager_call .check_cluster_health with
          | .error _ => false
          | .ok _ => true

/-- `execute_scaling_decision(decision)` (lines 146-186).  An unknown
`decision_type` returns `False` before any mutation; otherwise the decision
is appended to the history (trimmed to the last 100) with
`executed = True`, `executed_at = now`, `successful = success`, the
relevant cooldown timestamp is set to `now` and `current_nodes` is set to
`target_nodes` regardless of `success`. -/
def execute_scaling_decision (st : ScalerState) (now : ℚ) (d : ScalingDecision) :
    Bool × ScalerState :=
  if d.decision_type = "scale_up" ∨ d.decision_type = "scale_down" then
    let success :=
      if d.decision_type = "scale_up" then scale_up_exec st.current_nodes d.target_nodes
      else scale_down_exec st.current_nodes d.target_nodes
    let d1 : ScalingDecision :=
      { d with executed := true, executed_at := some now, successful := some success }
    let ds := st.scaling_decisions ++ [d1]
    let ds1 := if ds.length > 100 then ds.drop 1 else ds
    let st1 : ScalerState :=
      if d.decision_type = "scale_up" then { st with last_scale_up := now }
      else { st with last_scale_down := now }
    (success, { st1 with scaling_decisions := ds1, current_nodes := d.target_nodes })
  else (false, st)

/-! ## Load balancer (`core/load_balancer.py`) -/

/-- A node record as kept in `LoadBalancer.nodes` (lines 112-120).
`current_connections` is a Python int and may in principle be any integer,
hence `ℤ`. -/
structure LBNode where
  host : String
  port : ℕ
  weight : ℚ
  max_connections : ℕ
  current_connections : ℤ
  status : String
deriving DecidableEq, Repr

/-- The load balancer's mutable state (`LoadBalancer.__init__`, lines 19-44). -/
structure LBState where
  algorithm : String
  nodes : List (String × LBNode)
  node_health : List (String × Bool)
  request_counters : List (String × ℕ)
  response_times : List (String × List ℚ)
  max_connections_per_node : ℕ := 100
  min_connections_per_node : ℕ := 10
  current_node_index : ℕ := 0
deriving DecidableEq, Repr

/-- `acquire_connection(node_id)` (lines 261-278): reject unknown nodes and
nodes at or above `max_connections`; otherwise increment. -/
def acquire_connection (s : LBState) (node_id : String) : Bool × LBState :=
  match alookup s.nodes node_id with
  | none => (false, s)
  | some node =>
    if node.current_connections ≥ (node.max_connections : ℤ) then (false, s)
    else
      (true,
        { s with
            nodes := aset s.nodes node_id
              { node with current_connections := node.current_connections + 1 } })

/-- `release_connection(node_id)` (lines 280-289): decrement with a floor
of 0. -/
def release_connection (s : LBState) (node_id : String) : LBState :=
  match alookup s.nodes node_id with
  | none => s
  | some node =>
      { s with
          nodes := aset s.nodes node_id
            { node with current_connections := max 0 (node.current_connections - 1) } }

/-- `record_request(node_id, response_time, success)` (lines 235-259):
bump the request counter (a missing counter would raise `KeyError`, caught
by the handler with no prior mutation), append the response time to the
bounded reservoir (last 1000), and on success decrement the connection
count with a floor of 0. -/
def record_request (s : LBState) (node_id : String) (response_time : ℚ)
    (success : Bool) : LBState :=
  match alookup s.nodes node_id with
  | none => s
  | some node =>
    match alookup s.request_counters node_id with
    | none => s
    | some c =>
      let s1 : LBState :=
        { s with request_counters := aset s.request_counters node_id (c + 1) }
      let rts := (alookup s1.response_times node_id).getD [] ++ [response_time]
      let rts1 := if rts.length > 1000 then rts.drop (rts.length - 1000) else rts
      let s2 : LBState :=
        { s1 with response_times := aset s1.response_times node_id rts1 }
      if success then
        { s2 with
            nodes := aset s2.nodes node_id
              { node with current_connections := max 0 (node.current_connections - 1) } }
      else s2

/-- `_manage_node_connections(node_id)` (lines 350-371): widen
`max_connections` under high load, shrink it (never below
`min_connections_per_node`) under low load. -/
def manage_node_connections (s : LBState) (node_id : String) : LBState :=
  match alookup s.nodes node_id with
  | none => s
  | some node =>
    let current := node.current_connections
    if (current : ℚ) > (s.max_connections_per_node : ℚ) * (4 / 5) then
      { s with
          nodes := aset s.nodes node_id
            { node with
                max_connections :=
                  min (s.max_connections_per_node * 2) (node.max_connections + 10) } }
    else if current < (s.min_connections_per_node : ℤ) then
      { s with
          nodes := aset s.nodes node_id
            { node with
                max_connections :=
                  max s.min_connections_per_node (node.max_connections - 5) } }
    else s

/-- The write loop of `rebalance_connections` (lines 493-499): set each
healthy node's `current_connections` to the common target; a healthy id
missing from `nodes` raises `KeyError` (caught by the handler, prior
updates persisting). -/
def set_targets (target : ℤ) :
    List (String × LBNode) → List String → Bool × List (String × LBNode)
  | ns, [] => (true, ns)
  | ns, node_id :: rest =>
    match alookup ns node_id with
    | some n =>
        set_targets target (aset ns node_id { n with current_connections := target }) rest
    | none => (false, ns)

/-- `rebalance_connections()` (lines 476-506): distribute the total
connection count (over all nodes, healthy or not) evenly across the healthy
nodes, by floor division. -/
def rebalance_connections (s : LBState) : Bool × LBState :=
  let total_connections : ℤ := (s.nodes.map (fun p => p.2.current_connections)).sum
  let healthy_nodes := (s.node_health.filter (fun p => p.2)).map Prod.fst
  if healthy_nodes.isEmpty then (false, s)
  else
    let target := Int.fdiv total_connections (healthy_nodes.length : ℤ)
    let r := set_targets target s.nodes healthy_nodes
    (r.1, { s with nodes := r.2 })

/-- `_consistent_hash_select(available_nodes, tenant_id, key)` (lines
222-233).  `md5_int` stands for the external pure function
`int(hashlib.md5(x.encode()).hexdigest(), 16)`; the hash key is
`f"{tenant_id}:{key}"` when `key` is truthy (present and nonempty) and
`tenant_id` alone otherwise. -/
def consistent_hash_select (md5_int : String → ℕ) (available_nodes : List String)
    (tenant_id : String) (key : Option String) : Option String :=
  if available_nodes.isEmpty then none
  else
    let hash_key :=
      match key with
      | some k => if k ≠ "" then tenant_id ++ ":" ++ k else tenant_id
      | none => tenant_id
    available_nodes.get? (md5_int hash_key % available_nodes.length)

/-- `_least_connections_select` (lines 206-220): running minimum starting
from `float("inf")`. -/
def least_connections_select (nodes : List (String × LBNode))
    (available_nodes : List String) : Option String :=
  let step := fun (acc : Option (ℤ × String)) (nid : String) =>
    match alookup nodes nid with
    | none => acc
    | some n =>
      match acc with
      | none => some (n.current_connections, nid)
      | some (m, sel) =>
          if n.current_connections < m then some (n.current_connections, nid)
          else some (m, sel)
  (available_nodes.foldl step none).map Prod.snd

/-- `get_node(tenant_id, key)` (lines 174-195): gather the healthy ids,
then dispatch on the configured algorithm.  Only the round-robin branch
mutates state (`current_node_index`). -/
def get_node (md5_int : String → ℕ) (s : LBState) (tenant_id : String)
    (key : Option String) : Option String × LBState :=
  let available_nodes := (s.node_health.filter (fun p => p.2)).map Prod.fst
  if available_nodes.isEmpty then (none, s)
  else if s.algorithm = "round_robin" then
    (available_nodes.get? (s.current_node_index % available_nodes.length),
      { s with current_node_index := (s.current_node_index + 1) % available_nodes.length })
  else if s.algorithm = "least_connections" then
    (least_connections_select s.nodes available_nodes, s)
  else if s.algorithm = "consistent_hash" then
    (consistent_hash_select md5_int available_nodes tenant_id key, s)
  else
    (available_nodes.head?, s)


/-! ## Frame lemmas -/

theorem metrics_after_op_memory (m : CacheMetrics) (rt : ℚ) (b : Bool) :
    (metrics_after_op m rt b).memory_used_mb = m.memory_used_mb := by
  simp only [metrics_after_op]
  repeat' split
  all_goals rfl

theorem update_operation_metrics_store (s : CacheState) (tid : String) (rt : ℚ)
    (b : Bool) : (update_operation_metrics s tid rt b).store = s.store := by
  unfold update_operation_metrics
  split <;> rfl

theorem update_operation_metrics_tenants (s : CacheState) (tid : String) (rt : ℚ)
    (b : Bool) : (update_operation_metrics s tid rt b).tenants = s.tenants := by
  unfold update_operation_metrics
  split <;> rfl

theorem update_operation_metrics_mem (s : CacheState) (tid : String) (rt : ℚ)
    (b : Bool) (tid' : String) :
    mem_used (update_operation_metrics s tid rt b) tid' = mem_used s tid' := by
  unfold update_operation_metrics
  cases h : alookup s.tenantMetrics tid with
  | none => rfl
  | some m =>
      unfold mem_used
      by_cases he : tid = tid'
      · subst he
        simp [alookup_aset_self, h, metrics_after_op_memory]
      · simp [alookup_aset_ne _ _ _ _ he]

theorem check_tenant_quota_frame (s : CacheState) (now : ℚ) (tid op : String)
    (b : Bool) (s1 : CacheState)
    (h : check_tenant_quota s now tid op = .ok (b, s1)) :
    s1.tenants = s.tenants ∧ s1.tenantMetrics = s.tenantMetrics ∧
    s1.store = s.store ∧ s1.total_hits = s.total_hits ∧
    s1.total_misses = s.total_misses := by
  unfold check_tenant_quota at h
  cases ht : alookup s.tenants tid with
  | none =>
      simp only [ht, Except.ok.injEq, Prod.mk.injEq] at h
      obtain ⟨-, rfl⟩ := h
      exact ⟨rfl, rfl, rfl, rfl, rfl⟩
  | some t =>
      cases hm : alookup s.tenantMetrics tid with
      | none => simp [ht, hm] at h
      | some m =>
          simp only [ht, hm] at h
          by_cases hmem : m.memory_used_mb > t.memory_limit_mb
          · simp only [if_pos hmem, Except.ok.injEq, Prod.mk.injEq] at h
            obtain ⟨-, rfl⟩ := h
            exact ⟨rfl, rfl, rfl, rfl, rfl⟩
          · simp only [if_neg hmem] at h
            cases hrl : alookup s.rateLimiters tid with
            | some l =>
                simp only [hrl] at h
                split at h <;>
                  (simp only [Except.ok.injEq, Prod.mk.injEq] at h
                   obtain ⟨-, rfl⟩ := h
                   exact ⟨rfl, rfl, rfl, rfl, rfl⟩)
            | none =>
                simp only [hrl] at h
                split at h <;>
                  (simp only [Except.ok.injEq, Prod.mk.injEq] at h
                   obtain ⟨-, rfl⟩ := h
                   exact ⟨rfl, rfl, rfl, rfl, rfl⟩)

theorem check_tenant_quota_mem (s : CacheState) (now : ℚ) (tid op : String)
    (b : Bool) (s1 : CacheState)
    (h : check_tenant_quota s now tid op = .ok (b, s1)) (tid' : String) :
    mem_used s1 tid' = mem_used s tid' := by
  unfold mem_used
  rw [(check_tenant_quota_frame s now tid op b s1 h).2.1]

/-! ## Claim C2: the rate-limit gate -/

/-- C2.  For every tenant and operation, a request arriving strictly less
than `1 / requests_per_second` seconds after the stored last-admission
timestamp is rejected, a request arriving at or after that interval passes
the gate (admitted iff `now − last ≥ 1 / requests_per_second`), and only
admitted requests update the stored timestamp
(`_check_tenant_quota`, lines 186-199). -/
theorem rate_limit_gate (s : CacheState) (now : ℚ) (tid op : String)
    (t : Tenant) (m : CacheMetrics)
    (ht : alookup s.tenants tid = some t)
    (hm : alookup s.tenantMetrics tid = some m)
    (hmem : ¬ m.memory_used_mb > t.memory_limit_mb)
    (hrps : 0 < t.requests_per_second) :
    (now - rate_last s tid op < 1 / t.requests_per_second →
      ∃ s1, check_tenant_quota s now tid op = .ok (false, s1) ∧
        rate_last s1 tid op = rate_last s tid op) ∧
    (1 / t.requests_per_second ≤ now - rate_last s tid op →
      ∃ s1, check_tenant_quota s now tid op = .ok (true, s1) ∧
        rate_last s1 tid op = now) := by
  have hrk : rate_last s tid op
      = (alookup ((alookup s.rateLimiters tid).getD []) ("rate:" ++ op)).getD 0 := rfl
  cases hrl : alookup s.rateLimiters tid with
  | some l =>
      have hlast : rate_last s tid op = (alookup l ("rate:" ++ op)).getD 0 := by
        rw [hrk, hrl]; rfl
      constructor
      · intro hlt
        rw [hlast] at hlt
        refine ⟨s, ?_, rfl⟩
        simp only [check_tenant_quota, ht, hm, if_neg hmem, hrl, Option.getD_some]
        rw [if_pos hlt]
      · intro hge
        rw [hlast] at hge
        refine ⟨{ s with rateLimiters := aset s.rateLimiters tid (aset l ("rate:" ++ op) now) }, ?_, ?_⟩
        · simp only [check_tenant_quota, ht, hm, if_neg hmem, hrl, Option.getD_some]
          rw [if_neg (not_lt.mpr hge)]
        · simp [rate_last, alookup_aset_self]
  | none =>
      have hlast : rate_last s tid op = 0 := by rw [hrk, hrl]; rfl
      constructor
      · intro hlt
        rw [hlast] at hlt
        refine ⟨{ s with rateLimiters := aset s.rateLimiters tid [] }, ?_, ?_⟩
        · simp only [check_tenant_quota, ht, hm, if_neg hmem, hrl, Option.getD_none]
          rw [if_pos (by simpa [alookup] using hlt)]
        · rw [hlast]
          simp [rate_last, alookup_aset_self, alookup]
      · intro hge
        rw [hlast] at hge
        refine ⟨{ s with rateLimiters := aset (aset s.rateLimiters tid []) tid (aset [] ("rate:" ++ op) now) }, ?_, ?_⟩
        · simp only [check_tenant_quota, ht, hm, if_neg hmem, hrl, Option.getD_none]
          rw [if_neg (by simpa [alookup] using not_lt.mpr hge)]
        · simp [rate_last, alookup_aset_self]

/-- A concrete tenant used by the rate-gate witness. -/
def tenant2 : Tenant :=
  { id := "acme", name := "Acme", status := .active,
    memory_limit_mb := 512, requests_per_second := 100, max_connections := 50 }

/-- A concrete cache state whose tenant `acme` was last admitted for `get`
at time 10. -/
def cs2 : CacheState :=
  { tenants := [("acme", tenant2)],
    tenantMetrics := [("acme", {})],
    rateLimiters := [("acme", [("rate:get", 10)])],
    store := [] }

theorem rate_limit_gate_witness :
    0 < tenant2.requests_per_second ∧
    (∃ s1, check_tenant_quota cs2 (2001 / 200) "acme" "get" = .ok (false, s1) ∧
      rate_last s1 "acme" "get" = rate_last cs2 "acme" "get") :=
  ⟨by decide,
    (rate_limit_gate cs2 (2001 / 200) "acme" "get" tenant2 {}
      (by decide) (by decide) (by decide) (by decide)).1
      (by norm_num [rate_last, cs2, alookup, tenant2,
        show ("rate:" ++ "get" : String) = "rate:get" from rfl])⟩

/-! ## Claim C3: admission and tenant status -/

/-- A suspended tenant: registered, within quota, not rate limited. -/
def tenant3 : Tenant :=
  { id := "acme", name := "Acme", status := .suspended,
    memory_limit_mb := 512, requests_per_second := 100, max_connections := 50 }

/-- A cache state holding only the suspended tenant `acme`. -/
def cs3 : CacheState :=
  { tenants := [("acme", tenant3)],
    tenantMetrics := [("acme", {})],
    rateLimiters := [],
    store := [] }

/-- Counterexample to C3 as stated: `acme` is suspended, yet `set` is
admitted, returns success and writes through to the backend —
`_check_tenant_quota` never consults `status`. -/
theorem suspended_tenant_admitted :
    tenant3.status = TenantStatus.suspended ∧
    (cache_set cs3 1 0 "acme" "k" "42" none).1 = true ∧
    redis_get (cache_set cs3 1 0 "acme" "k" "42" none).2.store (cache_key "acme" "k")
      = some "42" := by
  refine ⟨rfl, ?_, ?_⟩ <;>
    norm_num [cache_set, check_tenant_quota, cs3, tenant3, alookup, aset,
      redis_get, redis_write, cache_key, value_size_mb,
      update_operation_metrics, metrics_after_op,
      show ("rate:" ++ "set" : String) = "rate:set" from rfl,
      show ("42".utf8ByteSize) = 2 from rfl]

/-- C3 amended: a data-plane operation is admitted only if the tenant is
registered — the status field is not checked.  An operation for an
unregistered tenant returns its failure value and leaves the whole state
(in particular the backing store) untouched. -/
theorem admission_requires_existing_tenant (s : CacheState) (now rt : ℚ)
    (tid op key sv : String) (ttl : Option ℤ) (dflt : Option String) (amount : ℤ)
    (keys : List String) (kvs : List (String × String)) :
    (alookup s.tenants tid = none →
      check_tenant_quota s now tid op = .ok (false, s) ∧
      cache_get s now rt tid key dflt = (dflt, s) ∧
      cache_set s now rt tid key sv ttl = (false, s) ∧
      cache_delete s now rt tid key = (false, s) ∧
      cache_incr s now rt tid key amount = (none, s) ∧
      cache_decr s now rt tid key amount = (none, s) ∧
      cache_mget s now rt tid keys = (keys.map (fun _ => none), s) ∧
      cache_mset s now rt tid kvs = (false, s)) ∧
    (∀ s1, check_tenant_quota s now tid op = .ok (true, s1) →
      (alookup s.tenants tid).isSome) := by
  constructor
  · intro h
    have hq : ∀ o : String, check_tenant_quota s now tid o = .ok (false, s) := by
      intro o
      simp [check_tenant_quota, h]
    refine ⟨hq op, ?_, ?_, ?_, ?_, ?_, ?_, ?_⟩ <;>
      simp [cache_get, cache_set, cache_delete, cache_incr, cache_decr,
        cache_mget, cache_mset, hq]
  · intro s1 hq
    cases hs : alookup s.tenants tid with
    | none => simp [check_tenant_quota, hs] at hq
    | some t => rfl

/-- The empty cache state: no tenants at all. -/
def cs3_empty : CacheState :=
  { tenants := [], tenantMetrics := [], rateLimiters := [], store := [] }

theorem admission_requires_existing_tenant_witness :
    check_tenant_quota cs3_empty 0 "ghost" "op" = .ok (false, cs3_empty) ∧
    cache_get cs3_empty 0 0 "ghost" "k" none = (none, cs3_empty) ∧
    cache_set cs3_empty 0 0 "ghost" "k" "v" none = (false, cs3_empty) ∧
    cache_delete cs3_empty 0 0 "ghost" "k" = (false, cs3_empty) ∧
    cache_incr cs3_empty 0 0 "ghost" "k" 1 = (none, cs3_empty) ∧
    cache_decr cs3_empty 0 0 "ghost" "k" 1 = (none, cs3_empty) ∧
    cache_mget cs3_empty 0 0 "ghost" [] = ([], cs3_empty) ∧
    cache_mset cs3_empty 0 0 "ghost" [] = (false, cs3_empty) :=
  (admission_requires_existing_tenant cs3_empty 0 0 "ghost" "op" "k" "v"
    none none 1 [] []).1 rfl

/-! ## Claim C1: memory quota enforcement in `set` -/

/-- C1.  Under an admitted `set` (the admission gate passed, yielding state
`s1`), if the value's size in MB plus the tenant's `memory_used_mb` would
exceed `memory_limit_mb` then `set` fails, writes nothing and leaves
`memory_used_mb` unchanged; otherwise the value is written (`SET`/`SETEX`)
and `memory_used_mb` grows by exactly the value's size
(`cache_manager.set`, lines 241-281; the size is
`len(serialized) / (1024·1024)` MB). -/
theorem cache_set_quota_enforcement (s : CacheState) (now rt : ℚ)
    (tid key sv : String) (ttl : Option ℤ) (t : Tenant) (m : CacheMetrics)
    (s1 : CacheState)
    (hq : check_tenant_quota s now tid "set" = .ok (true, s1))
    (ht : alookup s.tenants tid = some t)
    (hm : alookup s.tenantMetrics tid = some m) :
    (m.memory_used_mb + value_size_mb sv > t.memory_limit_mb →
      cache_set s now rt tid key sv ttl = (false, s1) ∧
      (cache_set s now rt tid key sv ttl).2.store = s.store ∧
      mem_used (cache_set s now rt tid key sv ttl).2 tid = mem_used s tid) ∧
    (¬ m.memory_used_mb + value_size_mb sv > t.memory_limit_mb →
      (cache_set s now rt tid key sv ttl).1 = true ∧
      (cache_set s now rt tid key sv ttl).2.store
        = redis_write s.store (cache_key tid key) sv ttl ∧
      mem_used (cache_set s now rt tid key sv ttl).2 tid
        = mem_used s tid + value_size_mb sv) := by
  have hfr := check_tenant_quota_frame s now tid "set" true s1 hq
  have ht1 : alookup s1.tenants tid = some t := by rw [hfr.1]; exact ht
  have hm1 : alookup s1.tenantMetrics tid = some m := by rw [hfr.2.1]; exact hm
  have hmem1 : mem_used s1 tid = mem_used s tid :=
    check_tenant_quota_mem s now tid "set" true s1 hq tid
  have hms : mem_used s tid = m.memory_used_mb := by simp [mem_used, hm]
  constructor
  · intro hover
    have hset : cache_set s now rt tid key sv ttl = (false, s1) := by
      simp only [cache_set, hq, ht1, hm1]
      rw [if_pos hover]
    refine ⟨hset, ?_, ?_⟩
    · rw [hset]; exact hfr.2.2.1
    · rw [hset]; exact hmem1
  · intro hfit
    have hset : cache_set s now rt tid key sv ttl
        = (true, update_operation_metrics
            { s1 with
                store := redis_write s1.store (cache_key tid key) sv ttl,
                tenantMetrics :=
                  aset s1.tenantMetrics tid
                    { m with memory_used_mb := m.memory_used_mb + value_size_mb sv } }
            tid rt true) := by
      simp only [cache_set, hq, ht1, hm1]
      rw [if_neg hfit]
    refine ⟨by rw [hset], ?_, ?_⟩
    · rw [hset, update_operation_metrics_store]
      show redis_write s1.store (cache_key tid key) sv ttl
        = redis_write s.store (cache_key tid key) sv ttl
      rw [hfr.2.2.1]
    · rw [hset, update_operation_metrics_mem]
      show mem_used
        { s1 with
            store := redis_write s1.store (cache_key tid key) sv ttl,
            tenantMetrics :=
              aset s1.tenantMetrics tid
                { m with memory_used_mb := m.memory_used_mb + value_size_mb sv } } tid
        = mem_used s tid + value_size_mb sv
      simp [mem_used, alookup_aset_self, hm]

/-- An active tenant for the quota-enforcement witness. -/
def tenant1 : Tenant :=
  { id := "acme", name := "Acme", status := .active,
    memory_limit_mb := 512, requests_per_second := 100, max_connections := 50 }

/-- The witness state: one active tenant, fresh metrics, empty store. -/
def cs1 : CacheState :=
  { tenants := [("acme", tenant1)],
    tenantMetrics := [("acme", {})],
    rateLimiters := [],
    store := [] }

/-- The state after the admission check of the witness `set` call. -/
def cs1r : CacheState :=
  { cs1 with rateLimiters := [("acme", [("rate:set", 1)])] }

theorem cache_set_quota_enforcement_witness :
    check_tenant_quota cs1 1 "acme" "set" = .ok (true, cs1r) ∧
    (¬ ({} : CacheMetrics).memory_used_mb + value_size_mb "42" > tenant1.memory_limit_mb) ∧
    ((cache_set cs1 1 0 "acme" "k" "42" none).1 = true ∧
     (cache_set cs1 1 0 "acme" "k" "42" none).2.store
       = redis_write cs1.store (cache_key "acme" "k") "42" none ∧
     mem_used (cache_set cs1 1 0 "acme" "k" "42" none).2 "acme"
       = mem_used cs1 "acme" + value_size_mb "42") :=
  ⟨by norm_num [check_tenant_quota, cs1, cs1r, tenant1, alookup, aset,
      show ("rate:" ++ "set" : String) = "rate:set" from rfl],
   by norm_num [value_size_mb, tenant1, show ("42".utf8ByteSize) = 2 from rfl],
   (cache_set_quota_enforcement cs1 1 0 "acme" "k" "42" none tenant1 {} cs1r
     (by norm_num [check_tenant_quota, cs1, cs1r, tenant1, alookup, aset,
       show ("rate:" ++ "set" : String) = "rate:set" from rfl])
     (by decide) (by decide)).2
   (by norm_num [value_size_mb, tenant1, show ("42".utf8ByteSize) = 2 from rfl])⟩

/-! ## Claim C8: repeated delete -/

theorem adel_eq_of_alookup_none {α : Type} (m : List (String × α)) (k : String)
    (h : alookup m k = none) : adel m k = m := by
  induction m with
  | nil => rfl
  | cons p rest ih =>
      obtain ⟨pk, pv⟩ := p
      by_cases hp : pk = k
      · simp [alookup, hp] at h
      · simp only [alookup, if_neg hp] at h
        simpa [adel, List.filter_cons, bne_iff_ne, hp] using ih h

/-- C8 amended: under an admitted `delete`, the call reports success iff
the key is present in the store; deleting an absent key is a no-op on the
store but returns failure (`delete`, lines 283-314: `success = result > 0`
where `result` is the Redis `DEL` count). -/
theorem delete_success_iff_key_present (s : CacheState) (now rt : ℚ)
    (tid key : String) (s1 : CacheState)
    (hq : check_tenant_quota s now tid "delete" = .ok (true, s1)) :
    ((cache_delete s now rt tid key).1 = true ↔
      (alookup s.store (cache_key tid key)).isSome) ∧
    (alookup s.store (cache_key tid key) = none →
      (cache_delete s now rt tid key).2.store = s.store ∧
      (cache_delete s now rt tid key).1 = false) := by
  have hstore : s1.store = s.store :=
    (check_tenant_quota_frame s now tid "delete" true s1 hq).2.2.1
  have hget : redis_get s1.store (cache_key tid key)
      = (alookup s.store (cache_key tid key)).map RedisEntry.value := by
    rw [redis_get, hstore]
  cases hsv : alookup s.store (cache_key tid key) with
  | none =>
      have h1 : (cache_delete s now rt tid key).1 = false := by
        simp [cache_delete, hq, redis_get, hsv, redis_del_count, hstore]
      have h2 : (cache_delete s now rt tid key).2.store = s.store := by
        simp [cache_delete, hq, redis_get, hsv, redis_del_count, hstore,
          update_operation_metrics_store,
          adel_eq_of_alookup_none s.store (cache_key tid key) hsv]
      exact ⟨by simp [h1, hsv], fun _ => ⟨h2, h1⟩⟩
  | some e =>
      constructor
      · by_cases hv : e.value = ""
        · simp [cache_delete, hq, redis_get, hsv, hv, redis_del_count, hstore]
        · cases hmm : alookup s1.tenantMetrics tid with
          | none =>
              simp [cache_delete, hq, redis_get, hsv, hv, hmm, redis_del_count, hstore]
          | some mm =>
              simp [cache_delete, hq, redis_get, hsv, hv, hmm, redis_del_count, hstore]
      · intro hnone
        exact absurd hnone (by simp)

/-- An active tenant for the delete scenarios. -/
def tenant8 : Tenant :=
  { id := "acme", name := "Acme", status := .active,
    memory_limit_mb := 512, requests_per_second := 100, max_connections := 50 }

/-- A state whose store holds one key for `acme`. -/
def cs8 : CacheState :=
  { tenants := [("acme", tenant8)],
    tenantMetrics := [("acme", {})],
    rateLimiters := [],
    store := [(cache_key "acme" "k", { value := "42" })] }

/-- Counterexample to C8 as stated: the first `delete` succeeds, the second
(well spaced to pass the rate gate) returns `False`, because `delete`
reports success only when the Redis `DEL` count is positive. -/
theorem second_delete_returns_false :
    (cache_delete cs8 1 0 "acme" "k").1 = true ∧
    (cache_delete (cache_delete cs8 1 0 "acme" "k").2 2 0 "acme" "k").1 = false := by
  constructor <;>
    norm_num [cache_delete, check_tenant_quota, cs8, tenant8, alookup, aset, adel,
      redis_get, redis_del_count, cache_key, value_size_mb,
      update_operation_metrics, metrics_after_op, List.filter,
      show ("rate:" ++ "delete" : String) = "rate:delete" from rfl,
      show ("42".utf8ByteSize) = 2 from rfl]

/-- The state after the admission check of the witness `delete` call. -/
def cs8r : CacheState :=
  { cs8 with rateLimiters := [("acme", [("rate:delete", 1)])] }

theorem delete_success_iff_key_present_witness :
    check_tenant_quota cs8 1 "acme" "delete" = .ok (true, cs8r) ∧
    ((cache_delete cs8 1 0 "acme" "k").1 = true ↔
      (alookup cs8.store (cache_key "acme" "k")).isSome) :=
  ⟨by norm_num [check_tenant_quota, cs8, cs8r, tenant8, alookup, aset,
      show ("rate:" ++ "delete" : String) = "rate:delete" from rfl],
   (delete_success_iff_key_present cs8 1 0 "acme" "k" cs8r
     (by norm_num [check_tenant_quota, cs8, cs8r, tenant8, alookup, aset,
       show ("rate:" ++ "delete" : String) = "rate:delete" from rfl])).1⟩

/-! ## Claim C4: the orchestrator command vocabulary -/

/-- C4 evidence.  The dispatcher recognizes only `create_backup`,
`restore_backup`, `get_metrics` and `get_tenants`; the documented
vocabulary's other 16 commands — `create_tenant` shown here together with
`cache_set` and `health_check` — all take the unknown-command branch, and
`get_tenants` is recognized although it is not part of the documented
vocabulary.  The repository's own CLI (`cli/interface.py`) and test
harnesses (`test_platform.py`, `tests/test_runner.py`) invoke the missing
commands and expect success. -/
theorem execute_command_vocabulary_divergence :
    "create_tenant" ∈ documented_commands ∧
    execute_command "create_tenant" = .unknown "Unknown command: create_tenant" ∧
    execute_command "cache_set" = .unknown "Unknown command: cache_set" ∧
    execute_command "health_check" = .unknown "Unknown command: health_check" ∧
    ("get_tenants" ∈ documented_commands → False) ∧
    execute_command "get_tenants" = .handler "_get_tenants" ∧
    execute_command "create_backup" = .handler "_create_backup" ∧
    execute_command "restore_backup" = .handler "_restore_backup" ∧
    execute_command "get_metrics" = .handler "_get_metrics" := by
  decide

/-! ## Claim C5: the scale-up decision rule -/

/-- A scaler state out of cooldown with room to grow. -/
def sc5 : ScalerState :=
  { min_nodes := 1, max_nodes := 5,
    scale_up_threshold := 80, scale_down_threshold := 20,
    scale_up_cooldown := 300, scale_down_cooldown := 300,
    current_nodes := 2 }

/-- Counterexample to C5 as stated: with CPU exactly at the scale-up
threshold (and both cooldowns elapsed, `current_nodes < max_nodes`) the
decision function returns no decision — the source compares with strict
`>`, not `≥`. -/
theorem cpu_at_threshold_no_scale_up :
    evaluate_scaling_needs sc5 1000 80 0 0 = none ∧
    sc5.current_nodes < sc5.max_nodes ∧
    ¬ ((1000 : ℚ) - sc5.last_scale_up < sc5.scale_up_cooldown) ∧
    ¬ ((1000 : ℚ) - sc5.last_scale_down < sc5.scale_down_cooldown) := by
  refine ⟨?_, by decide, by norm_num [sc5], by norm_num [sc5]⟩
  norm_num [evaluate_scaling_needs, sc5, request_rate_threshold]

/-- C5 amended: no decision while either cooldown is in effect; outside
both cooldowns, a scale-up decision with
`target = min(current + 1, max_nodes)` is produced when
`current_nodes < max_nodes` and any metric strictly exceeds its bound
(`cpu > threshold`, `memory > threshold`, or
`rate > 1000 · current_nodes`); equality does not trigger
(`evaluate_scaling_needs`, lines 74-144). -/
theorem evaluate_scaling_needs_spec (st : ScalerState) (now cpu memory rate : ℚ) :
    ((now - st.last_scale_up < st.scale_up_cooldown ∨
      now - st.last_scale_down < st.scale_down_cooldown) →
      evaluate_scaling_needs st now cpu memory rate = none) ∧
    (¬ now - st.last_scale_up < st.scale_up_cooldown →
     ¬ now - st.last_scale_down < st.scale_down_cooldown →
     st.current_nodes < st.max_nodes →
     (cpu > st.scale_up_threshold ∨ memory > st.scale_up_threshold ∨
       rate > 1000 * (st.current_nodes : ℚ)) →
     ∃ d, evaluate_scaling_needs st now cpu memory rate = some d ∧
       d.decision_type = "scale_up" ∧
       d.current_nodes = st.current_nodes ∧
       d.target_nodes = min (st.current_nodes + 1) st.max_nodes) := by
  constructor
  · rintro (h | h)
    · simp [evaluate_scaling_needs, if_pos h]
    · by_cases h1 : now - st.last_scale_up < st.scale_up_cooldown
      · simp [evaluate_scaling_needs, if_pos h1]
      · simp [evaluate_scaling_needs, if_neg h1, if_pos h]
  · intro h1 h2 hmax hcond
    have heval : evaluate_scaling_needs st now cpu memory rate = some
        { id := "scale_up_" ++ toString now.floor, agent_id := "scaling_agent",
          decision_type := "scale_up", current_nodes := st.current_nodes,
          target_nodes := min (st.current_nodes + 1) st.max_nodes,
          reason := "High resource usage", cpu_usage := cpu, memory_usage := memory,
          request_rate := rate, created_at := now } := by
      simp only [evaluate_scaling_needs, if_neg h1, if_neg h2, request_rate_threshold]
      rw [if_pos ⟨hcond, hmax⟩]
    exact ⟨_, heval, rfl, rfl, rfl⟩

theorem evaluate_scaling_needs_spec_witness :
    (¬ ((1000 : ℚ) - sc5.last_scale_up < sc5.scale_up_cooldown)) ∧
    (∃ d, evaluate_scaling_needs sc5 1000 81 0 0 = some d ∧
      d.decision_type = "scale_up" ∧
      d.current_nodes = sc5.current_nodes ∧
      d.target_nodes = min (sc5.current_nodes + 1) sc5.max_nodes) :=
  ⟨by norm_num [sc5],
    (evaluate_scaling_needs_spec sc5 1000 81 0 0).2
      (by norm_num [sc5]) (by norm_num [sc5]) (by decide)
      (Or.inl (by norm_num [sc5]))⟩

/-! ## Claim C6: state updates on failed executions -/

/-- A scaler state before a failing scale-up execution. -/
def sc6 : ScalerState :=
  { min_nodes := 1, max_nodes := 5,
    scale_up_threshold := 80, scale_down_threshold := 20,
    scale_up_cooldown := 300, scale_down_cooldown := 300,
    current_nodes := 1 }

/-- A scale-up decision targeting 2 nodes. -/
def d6 : ScalingDecision :=
  { id := "scale_up_0", agent_id := "scaling_agent", decision_type := "scale_up",
    current_nodes := 1, target_nodes := 2, reason := "High resource usage",
    cpu_usage := 90, memory_usage := 0, request_rate := 0, created_at := 0 }

/-- Counterexample to C6 as stated: the execution fails (returns `False`),
yet `current_nodes` is set to the target and the scale-up cooldown
timestamp is reset (`execute_scaling_decision` updates them outside any
success check, lines 171-179). -/
theorem failed_execution_still_updates_state :
    (execute_scaling_decision sc6 5 d6).1 = false ∧
    (execute_scaling_decision sc6 5 d6).2.current_nodes = 2 ∧
    (execute_scaling_decision sc6 5 d6).2.last_scale_up = 5 ∧
    sc6.current_nodes = 1 ∧ sc6.last_scale_up = 0 := by
  decide

/-- C6 amended: for a recognized decision type, `current_nodes` is set to
`target_nodes` and the matching cooldown timestamp is reset to `now`
regardless of whether the execution succeeded; only an unknown
`decision_type` leaves the state unchanged. -/
theorem execute_scaling_decision_updates (st : ScalerState) (now : ℚ)
    (d : ScalingDecision) :
    (d.decision_type = "scale_up" →
      (execute_scaling_decision st now d).2.current_nodes = d.target_nodes ∧
      (execute_scaling_decision st now d).2.last_scale_up = now ∧
      (execute_scaling_decision st now d).2.last_scale_down = st.last_scale_down) ∧
    (d.decision_type = "scale_down" →
      (execute_scaling_decision st now d).2.current_nodes = d.target_nodes ∧
      (execute_scaling_decision st now d).2.last_scale_down = now ∧
      (execute_scaling_decision st now d).2.last_scale_up = st.last_scale_up) ∧
    (d.decision_type ≠ "scale_up" → d.decision_type ≠ "scale_down" →
      execute_scaling_decision st now d = (false, st)) := by
  refine ⟨?_, ?_, ?_⟩
  · intro h
    simp [execute_scaling_decision, h]
  · intro h
    simp [execute_scaling_decision, h]
  · intro h1 h2
    simp [execute_scaling_decision, h1, h2]

theorem execute_scaling_decision_updates_witness :
    (execute_scaling_decision sc6 7 d6).2.current_nodes = d6.target_nodes ∧
    (execute_scaling_decision sc6 7 d6).2.last_scale_up = 7 ∧
    (execute_scaling_decision sc6 7 d6).2.last_scale_down = sc6.last_scale_down :=
  (execute_scaling_decision_updates sc6 7 d6).1 rfl

/-! ## Claim C7: every real scaling execution fails -/

theorem scale_up_exec_false (c t : ℕ) : scale_up_exec c t = false := by
  simp [scale_up_exec, scale_up_tail, manager_call, manager_defines]

theorem scale_down_exec_false (c t : ℕ) (h : t < c) : scale_down_exec c t = false := by
  unfold scale_down_exec
  rw [if_neg (by omega)]
  simp [manager_call, manager_defines]

theorem getLast_append_trim {α : Type} (l : List α) (a : α) :
    (if (l ++ [a]).length > 100 then (l ++ [a]).drop 1 else l ++ [a]).getLast?
      = some a := by
  split
  · cases l with
    | nil => simp_all
    | cons x xs => simp [List.getLast?_concat]
  · simp [List.getLast?_concat]

/-- A scaler state currently at one node. -/
def sc7 : ScalerState :=
  { min_nodes := 1, max_nodes := 5,
    scale_up_threshold := 80, scale_down_threshold := 20,
    scale_up_cooldown := 300, scale_down_cooldown := 300,
    current_nodes := 1 }

/-- A malformed decision: type `scale_down` but a target above the current
node count. -/
def d7 : ScalingDecision :=
  { id := "scale_down_0", agent_id := "scaling_agent", decision_type := "scale_down",
    current_nodes := 1, target_nodes := 2, reason := "Low resource usage",
    cpu_usage := 0, memory_usage := 0, request_rate := 0, created_at := 0 }

/-- Counterexample to C7 as universally stated: a `scale_down` decision
whose target exceeds `current_nodes` has `nodes_to_remove ≤ 0`, so
`_scale_down` returns `True` at line 230-231 and the execution succeeds
even though `target_nodes ≠ current_nodes`. -/
theorem scale_down_above_current_succeeds :
    d7.target_nodes ≠ sc7.current_nodes ∧
    (execute_scaling_decision sc7 3 d7).1 = true ∧
    (execute_scaling_decision sc7 3 d7).2.scaling_decisions.getLast?
      = some { d7 with executed := true, executed_at := some 3, successful := some true } := by
  decide

/-- A well-formed scale-up decision for the C7 witness. -/
def d7up : ScalingDecision :=
  { id := "scale_up_3", agent_id := "scaling_agent", decision_type := "scale_up",
    current_nodes := 1, target_nodes := 2, reason := "High resource usage",
    cpu_usage := 90, memory_usage := 0, request_rate := 0, created_at := 3 }

/-- C7 amended: every `scale_up` decision, and every `scale_down` decision
whose target is below `current_nodes` (the only decisions the scaler or
`force_scale` generate when target ≠ current), fails —
`MultiTenantCacheManager` defines none of `add_node`,
`rebalance_cluster`, `update_load_balancer_config`,
`check_cluster_health`, `migrate_data_from_node`, `remove_node`, so the
first awaited call raises and the handler returns `False` — yet the
decision is appended to the history with `executed = True` and
`successful = False`. -/
theorem real_scaling_executions_fail (st : ScalerState) (now : ℚ)
    (d : ScalingDecision)
    (h : d.decision_type = "scale_up" ∨
      (d.decision_type = "scale_down" ∧ d.target_nodes < st.current_nodes)) :
    (execute_scaling_decision st now d).1 = false ∧
    (execute_scaling_decision st now d).2.scaling_decisions.getLast?
      = some { d with executed := true, executed_at := some now,
                      successful := some false } := by
  rcases h with hup | ⟨hdn, hlt⟩
  · have hex : scale_up_exec st.current_nodes d.target_nodes = false :=
      scale_up_exec_false _ _
    constructor
    · simp [execute_scaling_decision, hup, hex]
    · have hds : (execute_scaling_decision st now d).2.scaling_decisions
          = (if (st.scaling_decisions ++
                [{ d with executed := true, executed_at := some now,
                          successful := some false }]).length > 100
             then (st.scaling_decisions ++
                [{ d with executed := true, executed_at := some now,
                          successful := some false }]).drop 1
             else st.scaling_decisions ++
                [{ d with executed := true, executed_at := some now,
                          successful := some false }]) := by
        simp [execute_scaling_decision, hup, hex]
      rw [hds, getLast_append_trim]
  · have hex : scale_down_exec st.current_nodes d.target_nodes = false :=
      scale_down_exec_false _ _ hlt
    constructor
    · simp [execute_scaling_decision, hdn, hex]
    · have hds : (execute_scaling_decision st now d).2.scaling_decisions
          = (if (st.scaling_decisions ++
                [{ d with executed := true, executed_at := some now,
                          successful := some false }]).length > 100
             then (st.scaling_decisions ++
                [{ d with executed := true, executed_at := some now,
                          successful := some false }]).drop 1
             else st.scaling_decisions ++
                [{ d with executed := true, executed_at := some now,
                          successful := some false }]) := by
        simp [execute_scaling_decision, hdn, hex]
      rw [hds, getLast_append_trim]

theorem real_scaling_executions_fail_witness :
    (d7up.decision_type = "scale_up" ∨
      (d7up.decision_type = "scale_down" ∧ d7up.target_nodes < sc7.current_nodes)) ∧
    ((execute_scaling_decision sc7 3 d7up).1 = false ∧
     (execute_scaling_decision sc7 3 d7up).2.scaling_decisions.getLast?
       = some { d7up with executed := true, executed_at := some 3,
                          successful := some false }) :=
  ⟨Or.inl rfl, real_scaling_executions_fail sc7 3 d7up (Or.inl rfl)⟩

/-! ## Claim C9: connection-count bookkeeping -/

/-- The node invariant of the specification:
`0 ≤ current_connections ≤ max_connections` for every node entry. -/
def conn_invariant (s : LBState) : Prop :=
  ∀ p ∈ s.nodes, 0 ≤ p.2.current_connections ∧
    p.2.current_connections ≤ (p.2.max_connections : ℤ)

theorem alookup_mem {α : Type} (m : List (String × α)) (k : String) (v : α)
    (h : alookup m k = some v) : (k, v) ∈ m := by
  induction m with
  | nil => cases h
  | cons p rest ih =>
      obtain ⟨pk, pv⟩ := p
      by_cases hp : pk = k
      · subst hp
        simp [alookup] at h
        simp [h]
      · simp only [alookup, if_neg hp] at h
        exact List.mem_cons_of_mem _ (ih h)

theorem aset_preserves_bounds (ns : List (String × LBNode)) (nid : String)
    (n' : LBNode)
    (hns : ∀ p ∈ ns, 0 ≤ p.2.current_connections ∧
      p.2.current_connections ≤ (p.2.max_connections : ℤ))
    (h0 : 0 ≤ n'.current_connections)
    (h1 : n'.current_connections ≤ (n'.max_connections : ℤ)) :
    ∀ p ∈ aset ns nid n', 0 ≤ p.2.current_connections ∧
      p.2.current_connections ≤ (p.2.max_connections : ℤ) := by
  intro p hp
  rcases mem_aset ns nid n' p hp with h | h
  · exact hns p h
  · rw [h]; exact ⟨h0, h1⟩

theorem set_targets_nonneg (target : ℤ) (ht : 0 ≤ target) :
    ∀ (ids : List String) (ns : List (String × LBNode)),
      (∀ p ∈ ns, 0 ≤ p.2.current_connections) →
      ∀ p ∈ (set_targets target ns ids).2, 0 ≤ p.2.current_connections := by
  intro ids
  induction ids with
  | nil => intro ns hns p hp; exact hns p hp
  | cons nid rest ih =>
      intro ns hns p hp
      cases hl : alookup ns nid with
      | none =>
          simp only [set_targets, hl] at hp
          exact hns p hp
      | some n =>
          simp only [set_targets, hl] at hp
          refine ih _ ?_ p hp
          intro q hq
          rcases mem_aset ns nid { n with current_connections := target } q hq with h | h
          · exact hns q h
          · rw [h]; exact ht

/-- C9 amended: `acquire_connection` increments iff the result stays within
`max_connections` (rejecting a node at or above the bound),
`release_connection` and `record_request` decrement with a floor of 0, and
all of them — together with the connection-pool manager, whose
`max_connections` adjustments stay above any current count whenever node
capacities are within the manager's `2 × max_connections_per_node` cap —
preserve `0 ≤ current_connections ≤ max_connections`.
`rebalance_connections` preserves only the lower bound: it can push a
healthy node's count above its `max_connections` (see the counterexample). -/
theorem connection_bookkeeping_invariant (s : LBState) (nid : String) (rt : ℚ)
    (b : Bool) (hInv : conn_invariant s) :
    conn_invariant (acquire_connection s nid).2 ∧
    conn_invariant (release_connection s nid) ∧
    conn_invariant (record_request s nid rt b) ∧
    ((∀ p ∈ s.nodes, p.2.max_connections ≤ 2 * s.max_connections_per_node) →
      conn_invariant (manage_node_connections s nid)) ∧
    (∀ n, alookup s.nodes nid = some n →
      ((n.max_connections : ℤ) ≤ n.current_connections →
        acquire_connection s nid = (false, s)) ∧
      (n.current_connections < (n.max_connections : ℤ) →
        acquire_connection s nid
          = (true,
              { s with
                  nodes :=
                    aset s.nodes nid
                      { n with
                          current_connections := n.current_connections + 1 } }))) ∧
    (∀ p ∈ (rebalance_connections s).2.nodes, 0 ≤ p.2.current_connections) := by
  have hmem : ∀ n, alookup s.nodes nid = some n →
      0 ≤ n.current_connections ∧ n.current_connections ≤ (n.max_connections : ℤ) :=
    fun n h => hInv _ (alookup_mem _ _ _ h)
  refine ⟨?_, ?_, ?_, ?_, ?_, ?_⟩
  · cases hl : alookup s.nodes nid with
    | none => simpa [acquire_connection, hl] using hInv
    | some n =>
        obtain ⟨h0, h1⟩ := hmem n hl
        by_cases hge : n.current_connections ≥ (n.max_connections : ℤ)
        · simpa [acquire_connection, hl, hge] using hInv
        · simp only [acquire_connection, hl, if_neg hge]
          exact aset_preserves_bounds _ _ _ hInv
            (show (0 : ℤ) ≤ n.current_connections + 1 by omega)
            (show n.current_connections + 1 ≤ (n.max_connections : ℤ) by omega)
  · cases hl : alookup s.nodes nid with
    | none => simpa [release_connection, hl] using hInv
    | some n =>
        obtain ⟨h0, h1⟩ := hmem n hl
        simp only [release_connection, hl]
        exact aset_preserves_bounds _ _ _ hInv (le_max_left _ _)
          (show max 0 (n.current_connections - 1) ≤ (n.max_connections : ℤ) from
            max_le (by positivity) (by omega))
  · cases hl : alookup s.nodes nid with
    | none => simpa [record_request, hl] using hInv
    | some n =>
        obtain ⟨h0, h1⟩ := hmem n hl
        cases hc : alookup s.request_counters nid with
        | none => simpa [record_request, hl, hc] using hInv
        | some c =>
            cases b with
            | false => simpa [record_request, hl, hc] using hInv
            | true =>
                simp only [record_request, hl, hc]
                exact aset_preserves_bounds _ _ _ hInv (le_max_left _ _)
                  (show max 0 (n.current_connections - 1) ≤ (n.max_connections : ℤ) from
                    max_le (by positivity) (by omega))
  · intro hcap
    cases hl : alookup s.nodes nid with
    | none => simpa [manage_node_connections, hl] using hInv
    | some n =>
        obtain ⟨h0, h1⟩ := hmem n hl
        have hntop : n.max_connections ≤ 2 * s.max_connections_per_node :=
          hcap _ (alookup_mem _ _ _ hl)
        by_cases hhigh : (n.current_connections : ℚ)
            > (s.max_connections_per_node : ℚ) * (4 / 5)
        · simp only [manage_node_connections, hl, if_pos hhigh]
          refine aset_preserves_bounds _ _ _ hInv h0 ?_
          push_cast
          omega
        · by_cases hlow : n.current_connections < (s.min_connections_per_node : ℤ)
          · simp only [manage_node_connections, hl, if_neg hhigh, if_pos hlow]
            refine aset_preserves_bounds _ _ _ hInv h0 ?_
            push_cast
            omega
          · simpa [manage_node_connections, hl, if_neg hhigh, if_neg hlow] using hInv
  · intro n hl
    obtain ⟨h0, h1⟩ := hmem n hl
    constructor
    · intro hge
      simp [acquire_connection, hl, hge]
    · intro hlt
      simp [acquire_connection, hl, not_le.mpr hlt]
  · unfold rebalance_connections
    by_cases he : ((s.node_health.filter (fun p => p.2)).map Prod.fst).isEmpty
    · simp only [he, if_pos]
      exact fun p hp => (hInv p hp).1
    · simp only [he, if_neg, Bool.not_eq_true]
      refine set_targets_nonneg _ ?_ _ _ (fun p hp => (hInv p hp).1)
      refine Int.fdiv_nonneg ?_ (by positivity)
      refine List.sum_nonneg ?_
      intro x hx
      obtain ⟨p, hp, rfl⟩ := List.mem_map.mp hx
      exact (hInv p hp).1

/-- A node record with the given capacity and connection count. -/
def lbnode (mc : ℕ) (cc : ℤ) : LBNode :=
  { host := "h", port := 6379, weight := 1, max_connections := mc,
    current_connections := cc, status := "online" }

/-- Two nodes, both satisfying the invariant: the healthy `a` is at its
(shrunken) capacity of 10, the unhealthy `b` carries 22 connections. -/
def lb9 : LBState :=
  { algorithm := "consistent_hash",
    nodes := [("a", lbnode 10 10), ("b", lbnode 100 22)],
    node_health := [("a", true), ("b", false)],
    request_counters := [("a", 0), ("b", 0)],
    response_times := [] }

/-- Counterexample to C9 as stated: `rebalance_connections` divides the
total connection count (including unhealthy nodes') over the healthy nodes
and assigns the quotient unconditionally, driving node `a` to 32 > 10
connections. -/
theorem rebalance_breaks_connection_bound :
    conn_invariant lb9 ∧ ¬ conn_invariant (rebalance_connections lb9).2 := by
  unfold conn_invariant
  decide

theorem connection_bookkeeping_invariant_witness :
    conn_invariant lb9 ∧ conn_invariant (acquire_connection lb9 "a").2 :=
  ⟨by unfold conn_invariant; decide,
    (connection_bookkeeping_invariant lb9 "a" 0 true
      (by unfold conn_invariant; decide)).1⟩

/-! ## Claim C10: consistent-hash selection is pure -/

/-- C10.  With the algorithm set to `consistent_hash` and an unchanged
healthy set, `get_node` is a pure function of `(tenant_id, key)`: two
states agreeing on `node_health` select the same node (for any
deterministic hash `md5_int`, standing for MD5), and neither call mutates
its state — so repeated calls return the same node
(`get_node` lines 174-195, `_consistent_hash_select` lines 222-233). -/
theorem consistent_hash_select_pure (md5_int : String → ℕ) (s1 s2 : LBState)
    (tid : String) (key : Option String)
    (h1 : s1.algorithm = "consistent_hash") (h2 : s2.algorithm = "consistent_hash")
    (hh : s1.node_health = s2.node_health) :
    (get_node md5_int s1 tid key).1 = (get_node md5_int s2 tid key).1 ∧
    (get_node md5_int s1 tid key).2 = s1 ∧
    (get_node md5_int s2 tid key).2 = s2 := by
  unfold get_node
  rw [h1, h2, hh]
  by_cases he : ((s2.node_health.filter (fun p => p.2)).map Prod.fst).isEmpty
  · simp [he]
  · simp [he]

/-- A consistent-hash state with one healthy and one unhealthy node. -/
def lb10a : LBState :=
  { algorithm := "consistent_hash",
    nodes := [("a", lbnode 100 0)],
    node_health := [("a", true), ("b", false)],
    request_counters := [("a", 0)],
    response_times := [],
    current_node_index := 0 }

/-- The same healthy set with different node records and scheduling index. -/
def lb10b : LBState :=
  { algorithm := "consistent_hash",
    nodes := [("a", lbnode 50 3), ("b", lbnode 100 22)],
    node_health := [("a", true), ("b", false)],
    request_counters := [("a", 9)],
    response_times := [],
    current_node_index := 7 }

theorem consistent_hash_select_pure_witness :
    lb10a.algorithm = "consistent_hash" ∧
    lb10a.node_health = lb10b.node_health ∧
    ((get_node (fun str => str.length) lb10a "acme" (some "k")).1
       = (get_node (fun str => str.length) lb10b "acme" (some "k")).1 ∧
     (get_node (fun str => str.length) lb10a "acme" (some "k")).2 = lb10a ∧
     (get_node (fun str => str.length) lb10b "acme" (some "k")).2 = lb10b) :=
  ⟨rfl, rfl,
    consistent_hash_select_pure (fun str => str.length) lb10a lb10b "acme" (some "k")
      rfl rfl rfl⟩
